import Mathlib

/-!
Verification of the dynamic resource access layer of the karmada dashboard
backend: the kind-to-coordinate resolver and its process-wide cache, the
kind-agnostic resource verber (Get/Create/Update/Delete with three-way
merge-patch update under conflict retry), the raw sort/filter query parsing of
the data-select engine, and the cluster client registry (config initializers
and the per-member-cluster proxied client cache).

The Go source is embedded shallowly: package-level mutable maps become
explicitly threaded state, external network calls (discovery, dynamic client,
kubeconfig loading) become fields of an environment record supplied by the
caller, and external library functions that the code merely invokes
(`flect.Pluralize`, `jsonmergepatch.CreateThreeWayJSONMergePatch`, JSON
marshalling) are abstract function parameters.  Errors are values of a small
error type that records the one distinction the code inspects: whether an
error is a Kubernetes conflict error.
-/

namespace DashboardProof

/-- Error model: the only property of a Go error the embedded code ever
branches on is `apierrors.IsConflict`; everything else is carried as a
message string. `fmt.Errorf` wrapping with `%v`/`%+v` produces a plain
(non-conflict) error, which the `other` constructor captures. -/
inductive GoErr where
  | conflict (msg : String)
  | other (msg : String)
deriving DecidableEq, Repr

/-- Whether the error is a Kubernetes conflict error (`apierrors.IsConflict`). -/
def GoErr.isConflict : GoErr → Bool
  | .conflict _ => true
  | .other _ => false

/-- The message carried by an error (what `%v` formatting renders). -/
def GoErr.msg : GoErr → String
  | .conflict m => m
  | .other m => m

/-- Embeds `schema.GroupVersionResource`. -/
structure GVR where
  group : String
  version : String
  resource : String
deriving DecidableEq, Repr

/-- Embeds `schema.GroupVersion`. -/
structure GroupVersion where
  group : String
  version : String
deriving DecidableEq, Repr

/-- Embeds `strings.ToLower`, written by structural recursion over the
character list (the core library's `String.toLower` is equal but defined by
byte-position recursion, which blocks evaluation inside proofs). -/
def stringToLower (s : String) : String :=
  ⟨s.data.map Char.toLower⟩

/-- Embeds `strings.Contains(s, c)` for a one-character substring, by
structural recursion over the character list. -/
def stringContainsChar (s : String) (c : Char) : Bool :=
  s.data.contains c

/-- Splits a string at every occurrence of a one-character separator,
`strings.Split`-style, by structural recursion over the character list. -/
def stringSplitOnChar (s : String) (c : Char) : List String :=
  (s.data.splitOn c).map (fun l => ⟨l⟩)

/-- Embeds `schema.ParseGroupVersion`: an empty string or `"/"` parses to the
empty group-version; zero slashes mean a bare version; one slash splits into
group and version; more slashes are an error. -/
def parseGroupVersion (gv : String) : Except GoErr GroupVersion :=
  if gv.length = 0 || gv = "/" then .ok ⟨"", ""⟩
  else
    match stringSplitOnChar gv '/' with
    | [v] => .ok ⟨"", v⟩
    | [g, v] => .ok ⟨g, v⟩
    | _ => .error (.other ("unexpected GroupVersion string: " ++ gv))

/-- Embeds `metav1.APIResource` (the two fields the code reads). -/
structure APIResource where
  name : String
  kind : String
deriving DecidableEq, Repr

/-- Embeds `metav1.APIResourceList` (the two fields the code reads). -/
structure APIResourceList where
  groupVersion : String
  apiResources : List APIResource
deriving DecidableEq, Repr

/-- The package-level map `kindToGroupVersionResource`, threaded explicitly.
Go map assignment is modelled by consing, with lookup finding the most
recently inserted binding first. -/
abbrev Cache : Type := List (String × GVR)

/-- Map lookup `kindToGroupVersionResource[kind]`. -/
def lookupCache (c : Cache) (k : String) : Option GVR :=
  match List.find? (fun p => p.1 = k) c with
  | some p => some p.2
  | none => none

/-- Map assignment `kindToGroupVersionResource[k] = v`. -/
def insertCache (c : Cache) (k : String) (v : GVR) : Cache :=
  (k, v) :: c

/-- The loop body of `buildGroupVersionResourceCache` for one discovered
`apiResource` within group-version `gv`: sub-resources (names containing a
path separator) are skipped; otherwise the lower-cased kind and the
`"resource-name.group"` composite are both mapped to the coordinate. -/
def processAPIResource (gv : GroupVersion) (cache : Cache) (r : APIResource) : Cache :=
  let crdKind := r.name ++ "." ++ gv.group
  let gvr : GVR := ⟨gv.group, gv.version, r.name⟩
  if stringContainsChar r.name '/' then cache
  else insertCache (insertCache cache (stringToLower r.kind) gvr) crdKind gvr

/-- Embeds `resourceVerber.buildGroupVersionResourceCache`.  A group-version
parse failure aborts the build, leaving the insertions already made (the Go
code mutates the package-level map in place). -/
def buildGroupVersionResourceCache : Cache → List APIResourceList → Except GoErr Unit × Cache
  | cache, [] => (.ok (), cache)
  | cache, resource :: rest =>
    match parseGroupVersion resource.groupVersion with
    | .error e => (.error e, cache)
    | .ok gv => buildGroupVersionResourceCache (resource.apiResources.foldl (processAPIResource gv) cache) rest

/-- Environment for the resolver: the discovery client's
`ServerGroupsAndResources` call (the group list, which the code discards, is
elided). -/
structure DiscoveryEnv where
  serverGroupsAndResources : Except GoErr (List APIResourceList)

/-- Result of one `groupVersionResourceFromKind` call: the returned value or
error, the cache state after the call, and how many catalog refreshes
(discovery round trips) the call performed. -/
structure ResolveResult where
  res : Except GoErr GVR
  cache : Cache
  refreshes : Nat

/-- Embeds `resourceVerber.groupVersionResourceFromKind`: cache hit returns
immediately; on a miss the full catalog is fetched once, the cache rebuilt,
and the cache re-checked once; a kind still absent yields an error naming the
kind. -/
def groupVersionResourceFromKind (env : DiscoveryEnv) (cache : Cache) (kind : String) : ResolveResult :=
  match lookupCache cache kind with
  | some gvr => ⟨.ok gvr, cache, 0⟩
  | none =>
    match env.serverGroupsAndResources with
    | .error e => ⟨.error e, cache, 1⟩
    | .ok resourceList =>
      match buildGroupVersionResourceCache cache resourceList with
      | (.error e, cache') => ⟨.error e, cache', 1⟩
      | (.ok _, cache') =>
        match lookupCache cache' kind with
        | some gvr => ⟨.ok gvr, cache', 1⟩
        | none => ⟨.error (.other ("could not find GVR for kind " ++ kind)), cache', 1⟩

/-- Embeds the `unstructured.Unstructured` objects the verber handles: the
self-described group/version/kind, the metadata fields the code reads or
writes, and an opaque payload for everything it never inspects.  `ns` is the
object's namespace. -/
structure KObject where
  group : String
  version : String
  kind : String
  ns : String
  name : String
  resourceVersion : String
  payload : String
deriving DecidableEq, Repr

/-- Embeds `object.SetResourceVersion(rv)`. -/
def setResourceVersion (o : KObject) (rv : String) : KObject :=
  { o with resourceVersion := rv }

/-- Embeds `resourceVerber.groupVersionResourceFromUnstructured`: the
coordinate is the object's own group and version plus the pluralized
lower-cased kind.  `pluralize` abstracts the external `flect.Pluralize`. -/
def groupVersionResourceFromUnstructured (pluralize : String → String) (object : KObject) : GVR :=
  ⟨object.group, object.version, pluralize (stringToLower object.kind)⟩

/-- Embeds `k8stypes.PatchType` (the code only ever uses the merge variant). -/
inductive PatchType where
  | merge
  | json
  | strategic
deriving DecidableEq, Repr

/-- One `Patch` call submitted to the dynamic client, with the retry attempt
number it was issued on. -/
structure PatchCall where
  attempt : Nat
  gvr : GVR
  ns : String
  name : String
  ptype : PatchType
  bytes : String
deriving DecidableEq, Repr

/-- Environment for `resourceVerber.Update`: the per-attempt server responses
to `Get` and `Patch`, plus the external pure functions the body invokes —
`MarshalJSON` and `jsonmergepatch.CreateThreeWayJSONMergePatch`
(original, modified, current). -/
structure UpdateEnv where
  get : GVR → String → String → Nat → Except GoErr KObject
  marshal : KObject → Except GoErr String
  threeWay : String → String → String → Except GoErr String
  patch : PatchCall → Except GoErr Unit

/-- Result of one execution of the retry closure inside `Update`: the
closure's return value, the (possibly mutated) caller object, and the patch
calls it submitted. -/
structure BodyOut where
  res : Except GoErr Unit
  object : KObject
  calls : List PatchCall
deriving Repr

/-- Embeds the closure passed to `retry.RetryOnConflict` inside
`resourceVerber.Update` for attempt `k`: fetch the latest server copy, wrap
any fetch error (losing its conflict status, as `fmt.Errorf` with `%v` does),
marshal the server copy, overwrite the caller object's resource version with
the fetched one, marshal the result, build the three-way merge patch with the
server copy as both original and current, and submit it as a merge patch; the
patch call's error is returned unwrapped. -/
def updateBody (env : UpdateEnv) (gvr : GVR) (ns name : String) (k : Nat) (object : KObject) : BodyOut :=
  match env.get gvr ns name k with
  | .error getErr =>
    ⟨.error (.other ("failed to get latest " ++ gvr.resource ++ " version: " ++ getErr.msg)), object, []⟩
  | .ok result =>
    match env.marshal result with
    | .error e => ⟨.error (.other ("failed to marshal original data: " ++ e.msg)), object, []⟩
    | .ok origData =>
      let object := setResourceVersion object result.resourceVersion
      match env.marshal object with
      | .error e => ⟨.error (.other ("failed to marshal modified data: " ++ e.msg)), object, []⟩
      | .ok modifiedData =>
        match env.threeWay origData modifiedData origData with
        | .error e => ⟨.error (.other ("failed creating merge patch: " ++ e.msg)), object, []⟩
        | .ok patchBytes =>
          let call : PatchCall := ⟨k, gvr, ns, name, .merge, patchBytes⟩
          ⟨env.patch call, object, [call]⟩

/-- Result of a whole `Update` call: its return value, the final state of the
caller's object, every patch call submitted, and the number of times the
retry closure ran. -/
structure UpdateOut where
  res : Except GoErr Unit
  object : KObject
  calls : List PatchCall
  attempts : Nat
deriving Repr

/-- Embeds `retry.RetryOnConflict` specialized to the update closure: run the
closure up to `s` more times starting at attempt index `k`; success stops
with success, a conflict error consumes a step and retries, any other error
stops immediately; exhausting all steps returns the last conflict error
(`wait.ErrWaitTimeout` replaced by `lastErr`, as `retry.OnError` does). -/
def retryOnConflictLoop (env : UpdateEnv) (gvr : GVR) (ns name : String) :
    Nat → Nat → KObject → List PatchCall → Option GoErr → UpdateOut
  | 0, k, ob, acc, lastErr =>
    ⟨match lastErr with | some e => .error e | none => .ok (), ob, acc, k⟩
  | s + 1, k, ob, acc, _ =>
    let b := updateBody env gvr ns name k ob
    match b.res with
    | .ok _ => ⟨.ok (), b.object, acc ++ b.calls, k + 1⟩
    | .error e =>
      if e.isConflict then
        retryOnConflictLoop env gvr ns name s (k + 1) b.object (acc ++ b.calls) (some e)
      else
        ⟨.error e, b.object, acc ++ b.calls, k + 1⟩

/-- `retry.DefaultRetry.Steps`: the bounded, non-configurable attempt budget. -/
def defaultRetrySteps : Nat := 5

/-- Embeds `resourceVerber.Update`: derive the coordinate from the object
itself, then run the fetch/patch cycle under `retry.RetryOnConflict` with the
default retry policy. -/
def updateVerb (env : UpdateEnv) (pluralize : String → String) (object : KObject) : UpdateOut :=
  let name := object.name
  let ns := object.ns
  let gvr := groupVersionResourceFromUnstructured pluralize object
  retryOnConflictLoop env gvr ns name defaultRetrySteps 0 object [] none

/-- State-threaded form of `Update`: the package-level kind cache passes
through untouched because the Go method never references it. -/
def updateVerbCached (env : UpdateEnv) (pluralize : String → String) (cache : Cache)
    (object : KObject) : UpdateOut × Cache :=
  (updateVerb env pluralize object, cache)

/-- Environment for `resourceVerber.Create`: the dynamic client's `Create`
call. -/
structure CreateEnv where
  create : GVR → String → KObject → Except GoErr KObject

/-- Result of a `Create` call: the server response and the coordinate the
request was addressed to. -/
structure CreateOut where
  res : Except GoErr KObject
  gvr : GVR
deriving Repr

/-- Embeds `resourceVerber.Create`: the coordinate is derived from the object
itself and the object is submitted as-is; the kind cache passes through
untouched because the Go method never references it. -/
def createVerb (env : CreateEnv) (pluralize : String → String) (cache : Cache)
    (object : KObject) : CreateOut × Cache :=
  let ns := object.ns
  let gvr := groupVersionResourceFromUnstructured pluralize object
  (⟨env.create gvr ns object, gvr⟩, cache)

/-- Embeds `metav1.DeletionPropagation`. -/
inductive PropagationPolicy where
  | foreground
  | background
  | orphan
deriving DecidableEq, Repr

/-- Embeds the two `metav1.DeleteOptions` fields the code sets. -/
structure DeleteOptions where
  propagationPolicy : Option PropagationPolicy
  gracePeriodSeconds : Option Int
deriving DecidableEq, Repr

/-- One `Delete` call submitted to the dynamic client. -/
structure DeleteCall where
  gvr : GVR
  ns : String
  name : String
  options : DeleteOptions
deriving DecidableEq, Repr

/-- Environment for `resourceVerber.Delete`: discovery (for kind resolution)
and the dynamic client's `Delete` call. -/
structure DeleteEnv where
  discovery : DiscoveryEnv
  deleteResource : DeleteCall → Except GoErr Unit

/-- Result of a `Delete` call: its return value, the cache state after kind
resolution, and the delete call submitted (none when resolution failed). -/
structure DeleteResult where
  res : Except GoErr Unit
  cache : Cache
  call : Option DeleteCall

/-- Embeds `resourceVerber.Delete`: resolve the kind, then delete with
foreground cascading propagation, forcing a one-second grace period when
`deleteNow` is set. -/
def deleteVerb (env : DeleteEnv) (cache : Cache) (kind ns name : String)
    (deleteNow : Bool) : DeleteResult :=
  let r := groupVersionResourceFromKind env.discovery cache kind
  match r.res with
  | .error e => ⟨.error e, r.cache, none⟩
  | .ok gvr =>
    let defaultPropagationPolicy := PropagationPolicy.foreground
    let defaultDeleteOptions : DeleteOptions :=
      { propagationPolicy := some defaultPropagationPolicy, gracePeriodSeconds := none }
    let opts :=
      if deleteNow then { defaultDeleteOptions with gracePeriodSeconds := some 1 }
      else defaultDeleteOptions
    let call : DeleteCall := ⟨gvr, ns, name, opts⟩
    ⟨env.deleteResource call, r.cache, some call⟩

/-- Embeds `dataselect.ComparableValue` as used by query construction: the
filter parser only ever wraps raw strings in `StdComparableString`. -/
inductive ComparableValue where
  | stdString (s : String)
deriving DecidableEq, Repr

/-- Embeds `dataselect.SortBy` (`PropertyName` is a string type). -/
structure SortBy where
  property : String
  ascending : Bool
deriving DecidableEq, Repr

/-- Embeds `dataselect.SortQuery`. -/
structure SortQuery where
  sortByList : List SortBy
deriving DecidableEq, Repr

/-- Embeds `dataselect.NoSort`. -/
def noSort : SortQuery := ⟨[]⟩

/-- Embeds `dataselect.FilterBy`. -/
structure FilterBy where
  property : String
  value : ComparableValue
deriving DecidableEq, Repr

/-- Embeds `dataselect.FilterQuery`. -/
structure FilterQuery where
  filterByList : List FilterBy
deriving DecidableEq, Repr

/-- Embeds `dataselect.NoFilter`. -/
def noFilter : FilterQuery := ⟨[]⟩

/-- The pair-consuming loop of `NewSortQuery` (`for i := 0; i+1 < len; i += 2`):
each pair is a direction flag followed by a property name; a flag other than
`"a"` or `"d"` makes the whole call return `NoSort`, modelled by `none`. -/
def newSortQueryLoop : List String → Option (List SortBy)
  | [] => some []
  | [_] => some []
  | orderOption :: propertyName :: rest =>
    if orderOption = "a" then
      (newSortQueryLoop rest).map (fun l => ⟨propertyName, true⟩ :: l)
    else if orderOption = "d" then
      (newSortQueryLoop rest).map (fun l => ⟨propertyName, false⟩ :: l)
    else
      none

/-- Embeds `dataselect.NewSortQuery`: a nil or odd-length raw list yields
`NoSort` (a nil Go slice has length 0 and yields an empty sort list, equal to
`NoSort` as a value; the explicit nil check is therefore subsumed by the
parity check and the loop). -/
def NewSortQuery (sortByListRaw : List String) : SortQuery :=
  if sortByListRaw.length % 2 = 1 then noSort
  else
    match newSortQueryLoop sortByListRaw with
    | none => noSort
    | some sortByList => ⟨sortByList⟩

/-- The pair-consuming loop of `NewFilterQuery`: each pair is a property name
followed by a raw string value, wrapped in `StdComparableString`. -/
def newFilterQueryLoop : List String → List FilterBy
  | [] => []
  | [_] => []
  | propertyName :: propertyValue :: rest =>
    ⟨propertyName, .stdString propertyValue⟩ :: newFilterQueryLoop rest

/-- Embeds `dataselect.NewFilterQuery`: a nil or odd-length raw list yields
`NoFilter`. -/
def NewFilterQuery (filterByListRaw : List String) : FilterQuery :=
  if filterByListRaw.length % 2 = 1 then noFilter
  else ⟨newFilterQueryLoop filterByListRaw⟩

/-- Specification-side reading of the sort pairs: every (flag, property) pair
becomes a criterion whose direction is ascending exactly when the flag is
`"a"`.  Stated from the spec's words to compare against `NewSortQuery`. -/
def sortPairsOfSpec : List String → List SortBy
  | flag :: property :: rest => ⟨property, flag = "a"⟩ :: sortPairsOfSpec rest
  | _ => []

/-- Specification-side reading of the filter pairs: every (property, value)
pair becomes a string-equality criterion.  Stated from the spec's words to
compare against `NewFilterQuery`. -/
def filterPairsOfSpec : List String → List FilterBy
  | property :: value :: rest => ⟨property, .stdString value⟩ :: filterPairsOfSpec rest
  | _ => []

/-- Embeds `rest.Config` (the fields the embedded code reads or writes). -/
structure RestConfig where
  host : String
  userAgent : String
  insecure : Bool
  qps : Nat
  burst : Nat
  caData : String
  certData : String
  keyData : String
deriving DecidableEq, Repr

/-- Embeds the `clientcmdapi.Config` produced by the registry: the code only
ever populates one cluster, one auth-info and one context, so the single
entries are carried flat. -/
structure APIConfig where
  server : String
  insecureSkipTLSVerify : Bool
  certificateAuthorityData : String
  clientCertificateData : String
  clientKeyData : String
  currentContext : String
deriving DecidableEq, Repr

/-- Embeds `ConvertRestConfigToAPIConfig`. -/
def convertRestConfigToAPIConfig (restConfig : RestConfig) : APIConfig :=
  { server := restConfig.host
    insecureSkipTLSVerify := restConfig.insecure
    certificateAuthorityData := restConfig.caData
    clientCertificateData := restConfig.certData
    clientKeyData := restConfig.keyData
    currentContext := "contextName" }

/-- Embeds `configBuilder`. -/
structure ConfigBuilder where
  kubeconfigPath : String
  kubeContext : String
  insecure : Bool
  userAgent : String
deriving DecidableEq, Repr

/-- Embeds `newConfigBuilder`: fold the functional options over the zero
builder. -/
def newConfigBuilder (options : List (ConfigBuilder → ConfigBuilder)) : ConfigBuilder :=
  options.foldl (fun b o => o b) ⟨"", "", false, ""⟩

/-- Embeds the `WithKubeconfig` option. -/
def withKubeconfig (path : String) : ConfigBuilder → ConfigBuilder :=
  fun c => { c with kubeconfigPath := path }

/-- Embeds the `WithKubeContext` option. -/
def withKubeContext (kubecontext : String) : ConfigBuilder → ConfigBuilder :=
  fun c => { c with kubeContext := kubecontext }

/-- Embeds the `WithInsecureTLSSkipVerify` option. -/
def withInsecureTLSSkipVerify (insecure : Bool) : ConfigBuilder → ConfigBuilder :=
  fun c => { c with insecure := insecure }

/-- Embeds the `WithUserAgent` option. -/
def withUserAgent (agent : String) : ConfigBuilder → ConfigBuilder :=
  fun c => { c with userAgent := agent }

/-- Which credential source a construction step consulted: ambient in-cluster
identity (`rest.InClusterConfig`) or the explicit kubeconfig file path. -/
inductive ConfigMode where
  | ambient
  | file
deriving DecidableEq, Repr

/-- A built `kubeclient.Interface`: opaque to the registry, which only
stores and returns it.  A tag distinguishes distinct clients. -/
structure KubeClient where
  tag : String
deriving DecidableEq, Repr

/-- Environment for the client registry: the ambient in-cluster detection,
the kubeconfig loaders, the client constructor, and the package's default
constants (`DefaultUserAgent`, `DefaultQPS`, `DefaultBurst`), which live in a
sibling file and whose concrete values none of the embedded behavior depends
on. -/
structure ClientEnv where
  inClusterConfig : Except GoErr RestConfig
  loadRestConfig : String → String → Except GoErr RestConfig
  loadAPIConfig : String → String → Except GoErr APIConfig
  newForConfig : RestConfig → Except GoErr KubeClient
  defaultUserAgent : String
  defaultQPS : Nat
  defaultBurst : Nat

/-- Embeds `configBuilder.buildRestConfig`: an empty path is an error;
otherwise load the kubeconfig and stamp QPS, burst, user agent and the
insecure flag. -/
def buildRestConfig (env : ClientEnv) (b : ConfigBuilder) : Except GoErr RestConfig :=
  if b.kubeconfigPath.length = 0 then .error (.other "must specify kubeconfig")
  else
    match env.loadRestConfig b.kubeconfigPath b.kubeContext with
    | .error e => .error e
    | .ok restConfig =>
      .ok { restConfig with
              qps := env.defaultQPS
              burst := env.defaultBurst
              userAgent := env.defaultUserAgent ++ "/" ++ b.userAgent
              insecure := b.insecure }

/-- Embeds `configBuilder.buildAPIConfig`. -/
def buildAPIConfig (env : ClientEnv) (b : ConfigBuilder) : Except GoErr APIConfig :=
  if b.kubeconfigPath.length = 0 then .error (.other "must specify kubeconfig")
  else env.loadAPIConfig b.kubeconfigPath b.kubeContext

/-- Outcome of `InitKubeConfig`: `exitCode` is `some 1` when the Go code
calls `os.Exit(1)`; the two package-level globals it assigns; and the trace
of credential sources consulted, in order. -/
structure KubeInit where
  exitCode : Option Nat
  kubernetesRestConfig : Option RestConfig
  kubernetesAPIConfig : Option APIConfig
  trace : List ConfigMode
deriving Repr

/-- Embeds `InitKubeConfig`: prefer `rest.InClusterConfig`; only if that
fails, fall back to the explicit kubeconfig path (rest config then API
config), exiting on any failure there. -/
def initKubeConfig (env : ClientEnv) (options : List (ConfigBuilder → ConfigBuilder)) : KubeInit :=
  let builder := newConfigBuilder options
  match env.inClusterConfig with
  | .ok restConfig =>
    let restConfig := { restConfig with
                          userAgent := env.defaultUserAgent ++ "/" ++ builder.userAgent
                          insecure := builder.insecure }
    ⟨none, some restConfig, some (convertRestConfigToAPIConfig restConfig), [.ambient]⟩
  | .error _ =>
    match buildRestConfig env builder with
    | .error _ => ⟨some 1, none, none, [.ambient, .file]⟩
    | .ok restConfig =>
      match buildAPIConfig env builder with
      | .error _ => ⟨some 1, some restConfig, none, [.ambient, .file, .file]⟩
      | .ok apiConfig => ⟨none, some restConfig, some apiConfig, [.ambient, .file, .file]⟩

/-- Outcome of `InitKarmadaConfig`: exit status, the three package-level
globals it assigns, and the trace of credential sources consulted. -/
structure KarmadaInit where
  exitCode : Option Nat
  karmadaRestConfig : Option RestConfig
  karmadaAPIConfig : Option APIConfig
  karmadaMemberConfig : Option RestConfig
  trace : List ConfigMode
deriving Repr

/-- Embeds `InitKarmadaConfig`: build the rest config, the API config and the
member rest config, all from the explicit kubeconfig path, exiting on any
failure; ambient in-cluster identity is never consulted. -/
def initKarmadaConfig (env : ClientEnv) (options : List (ConfigBuilder → ConfigBuilder)) : KarmadaInit :=
  let builder := newConfigBuilder options
  match buildRestConfig env builder with
  | .error _ => ⟨some 1, none, none, none, [.file]⟩
  | .ok restConfig =>
    match buildAPIConfig env builder with
    | .error _ => ⟨some 1, some restConfig, none, none, [.file, .file]⟩
    | .ok apiConfig =>
      match buildRestConfig env builder with
      | .error _ => ⟨some 1, some restConfig, some apiConfig, none, [.file, .file, .file]⟩
      | .ok memberConfig =>
        ⟨none, some restConfig, some apiConfig, some memberConfig, [.file, .file, .file]⟩

/-- Embeds the `proxyURL` format-string constant. -/
def proxyURL : String := "/apis/cluster.karmada.io/v1alpha1/clusters/%s/proxy/"

/-- Splits a character list at the first occurrence of a pattern, returning
the parts before and after it. -/
def splitFirst (pat : List Char) : List Char → Option (List Char × List Char)
  | [] => none
  | c :: rest =>
    if pat.isPrefixOf (c :: rest) then some ([], (c :: rest).drop pat.length)
    else
      match splitFirst pat rest with
      | some (before, after) => some (c :: before, after)
      | none => none

/-- Embeds `fmt.Sprintf` for a format string holding a single `%s` verb. -/
def sprintf1 (format arg : String) : String :=
  match splitFirst ['%', 's'] format.data with
  | some (before, after) => ⟨before⟩ ++ arg ++ ⟨after⟩
  | none => format

/-- The package-level mutable state of the karmada side of the registry: the
configs set by `InitKarmadaConfig`, the `memberClients` per-cluster-name
cache, and the `inClusterClientForMemberAPIServer` global. -/
structure KarmadaState where
  karmadaRestConfig : Option RestConfig
  karmadaAPIConfig : Option APIConfig
  karmadaMemberConfig : Option RestConfig
  memberClients : List (String × KubeClient)
  memberAPIServerClient : Option KubeClient
deriving Repr

/-- Lookup in the `memberClients` map (`sync.Map.Load`). -/
def lookupMember (m : List (String × KubeClient)) (k : String) : Option KubeClient :=
  match List.find? (fun p => p.1 = k) m with
  | some p => some p.2
  | none => none

/-- Store into the `memberClients` map (`sync.Map.Store`). -/
def storeMember (m : List (String × KubeClient)) (k : String) (c : KubeClient) :
    List (String × KubeClient) :=
  (k, c) :: m

/-- Embeds `isKarmadaInitialized`. -/
def isKarmadaInitialized (st : KarmadaState) : Bool :=
  !(st.karmadaRestConfig.isNone || st.karmadaAPIConfig.isNone)

/-- Result of one `InClusterClientForMemberCluster` call: the returned client
(`none` embeds a nil interface), the package state afterwards, and the
configs passed to `kubeclient.NewForConfig` during the call. -/
structure MemberClientOut where
  client : Option KubeClient
  state : KarmadaState
  builds : List RestConfig
deriving Repr

/-- Embeds `InClusterClientForMemberCluster`: fail fast when uninitialized;
return the cached client for a known cluster name; otherwise rewrite the
shared member config's host to the control plane's host plus the proxy path
for this cluster (an in-place mutation of the package-level config, kept in
the state), build a client from it, cache it under the cluster name and
return it.  The arm where `karmadaMemberConfig` is absent despite the
initialization check cannot be reached after `InitKarmadaConfig`; the Go code
would dereference a nil pointer there, embedded as a nil return. -/
def inClusterClientForMemberCluster (env : ClientEnv) (st : KarmadaState)
    (clusterName : String) : MemberClientOut :=
  if !isKarmadaInitialized st then ⟨none, st, []⟩
  else
    match lookupMember st.memberClients clusterName with
    | some value => ⟨some value, { st with memberAPIServerClient := some value }, []⟩
    | none =>
      match st.karmadaRestConfig, st.karmadaMemberConfig with
      | some restConfig, some memberConfig =>
        let memberConfig := { memberConfig with
                                host := restConfig.host ++ sprintf1 proxyURL clusterName }
        match env.newForConfig memberConfig with
        | .error _ => ⟨none, { st with karmadaMemberConfig := some memberConfig }, [memberConfig]⟩
        | .ok c =>
          ⟨some c,
            { st with
                karmadaMemberConfig := some memberConfig
                memberClients := storeMember st.memberClients clusterName c
                memberAPIServerClient := some c },
            [memberConfig]⟩
      | _, _ => ⟨none, st, []⟩

/-- What the specification demands of a patch submitted by `Update` on the
attempt it was issued: addressed by the derived coordinate, namespace and
name, written as a merge patch, and carrying exactly the three-way JSON merge
patch computed with that attempt's freshly fetched server copy as both the
original and the current base and the caller's object — resource version
overwritten by the server's — as the desired target. -/
def PatchCallSpec (env : UpdateEnv) (gvr : GVR) (ns name : String) (ob0 : KObject)
    (c : PatchCall) : Prop :=
  c.gvr = gvr ∧ c.ns = ns ∧ c.name = name ∧ c.ptype = .merge ∧
  ∃ result origData modifiedData,
    env.get gvr ns name c.attempt = .ok result ∧
    env.marshal result = .ok origData ∧
    env.marshal (setResourceVersion ob0 result.resourceVersion) = .ok modifiedData ∧
    env.threeWay origData modifiedData origData = .ok c.bytes

/-- The caller's object as the retry loop may have left it: either untouched,
or with its resource version overwritten by some value. -/
def ObjReach (ob0 ob : KObject) : Prop :=
  ob = ob0 ∨ ∃ rv, ob = setResourceVersion ob0 rv

/-- The caller's object with its resource version overwritten by the version
carried by some server copy the loop fetched. -/
def FetchedRV (env : UpdateEnv) (gvr : GVR) (ns name : String) (ob0 ob : KObject) : Prop :=
  ∃ k result, env.get gvr ns name k = .ok result ∧
    ob = setResourceVersion ob0 result.resourceVersion

/-- Concrete caller object used by the witnesses. -/
def obW : KObject := ⟨"apps", "v1", "Deployment", "default", "example", "1", "caller"⟩

/-- Concrete pluralization function used by the witnesses. -/
def pluralizeW : String → String := fun s => s ++ "s"

/-- The coordinate `obW` derives to under `pluralizeW`. -/
def gvrW : GVR := ⟨"apps", "v1", "deployments"⟩

/-- Concrete server copy (drifted resource version) used by the witnesses. -/
def serverObjW : KObject := ⟨"apps", "v1", "Deployment", "default", "example", "7", "server"⟩

/-- Concrete update environment in which the fetch, both marshals, the patch
construction and the write all succeed on the first attempt. -/
def envW : UpdateEnv :=
  { get := fun _ _ _ _ => .ok serverObjW
    marshal := fun o => .ok (o.name ++ "|" ++ o.resourceVersion ++ "|" ++ o.payload)
    threeWay := fun origData modifiedData _ => .ok (origData ++ ">" ++ modifiedData)
    patch := fun _ => .ok () }

/-- The one patch call `updateVerb envW pluralizeW obW` submits. -/
def cW : PatchCall :=
  ⟨0, gvrW, "default", "example", .merge, "example|7|server>example|7|caller"⟩

/-- Concrete update environment whose fetch fails outright. -/
def envGetErrW : UpdateEnv :=
  { envW with get := fun _ _ _ _ => .error (.other "boom") }

/-- Concrete server copy whose resource version coincides with the one the
caller passed in (no concurrent drift). -/
def serverSameW : KObject := ⟨"apps", "v1", "Deployment", "default", "example", "1", "server"⟩

/-- Concrete update environment fetching `serverSameW`. -/
def envSameW : UpdateEnv :=
  { envW with get := fun _ _ _ _ => .ok serverSameW }

/-- Concrete discovery environment with an empty catalog. -/
def envDiscW : DiscoveryEnv := ⟨.ok []⟩

/-- Concrete warm cache used by the resolver witness. -/
def cacheW : Cache := [("deployment", gvrW)]

/-- Concrete group-version used by the cache-population witness. -/
def gvW : GroupVersion := ⟨"apps", "v1"⟩

/-- Concrete discovered resource type used by the cache-population witness. -/
def apiResourceW : APIResource := ⟨"deployments", "Deployment"⟩

/-- Concrete delete environment resolving kinds from `cacheW`. -/
def envDelW : DeleteEnv :=
  { discovery := envDiscW
    deleteResource := fun _ => .ok () }

/-- The delete call `deleteVerb envDelW cacheW "deployment" "default" "example" true`
submits. -/
def deleteCallW : DeleteCall :=
  ⟨gvrW, "default", "example", ⟨some .foreground, some 1⟩⟩

/-- Concrete create environment echoing the submitted object. -/
def cenvW : CreateEnv := ⟨fun _ _ o => .ok o⟩

/-- Concrete rest config used by the registry witnesses. -/
def rcW : RestConfig := ⟨"https://karmada-apiserver:5443", "", false, 0, 0, "", "", ""⟩

/-- Concrete API config used by the registry witnesses. -/
def apiConfW : APIConfig := ⟨"https://karmada-apiserver:5443", false, "", "", "", "ctx"⟩

/-- Concrete registry environment in which ambient in-cluster detection
succeeds and the kubeconfig file also loads. -/
def clientEnvW : ClientEnv :=
  { inClusterConfig := .ok rcW
    loadRestConfig := fun _ _ => .ok rcW
    loadAPIConfig := fun _ _ => .ok apiConfW
    newForConfig := fun rc => .ok ⟨rc.host⟩
    defaultUserAgent := "karmada-dashboard"
    defaultQPS := 50
    defaultBurst := 100 }

/-- Concrete initialized karmada registry state with an empty member-client
cache. -/
def karmadaStW : KarmadaState :=
  { karmadaRestConfig := some rcW
    karmadaAPIConfig := some apiConfW
    karmadaMemberConfig := some rcW
    memberClients := []
    memberAPIServerClient := none }

theorem lookup_insert_self (c : Cache) (k : String) (v : GVR) :
    lookupCache (insertCache c k v) k = some v := by
  simp [lookupCache, insertCache, List.find?]

theorem lookup_insert_ne (c : Cache) (k k2 : String) (v : GVR) (h : k2 ≠ k) :
    lookupCache (insertCache c k v) k2 = lookupCache c k2 := by
  simp [lookupCache, insertCache, List.find?, Ne.symm h]

theorem setResourceVersion_idem (o : KObject) (rv rv2 : String) :
    setResourceVersion (setResourceVersion o rv) rv2 = setResourceVersion o rv2 := by
  simp [setResourceVersion]

/-- C3: for every kind, resolution returns the cached coordinate immediately
on a hit with no catalog refresh; on a miss it performs exactly one catalog
refresh and cache rebuild, and if the kind is still absent after the rebuild
it returns an error naming the requested kind — it never refreshes twice in
one call. -/
theorem resolve_single_rebuild (env : DiscoveryEnv) (cache : Cache) (kind : String) :
    (groupVersionResourceFromKind env cache kind).refreshes ≤ 1
    ∧ (∀ gvr, lookupCache cache kind = some gvr →
        groupVersionResourceFromKind env cache kind = ⟨.ok gvr, cache, 0⟩)
    ∧ (lookupCache cache kind = none →
        (groupVersionResourceFromKind env cache kind).refreshes = 1
        ∧ (∀ e, env.serverGroupsAndResources = .error e →
            groupVersionResourceFromKind env cache kind = ⟨.error e, cache, 1⟩)
        ∧ (∀ resourceList, env.serverGroupsAndResources = .ok resourceList →
            (buildGroupVersionResourceCache cache resourceList).1 = .ok () →
            lookupCache (buildGroupVersionResourceCache cache resourceList).2 kind = none →
            (groupVersionResourceFromKind env cache kind).res =
              .error (.other ("could not find GVR for kind " ++ kind)))) := by
  refine ⟨?_, ?_, ?_⟩
  · rcases h1 : lookupCache cache kind with _ | gvr
    · rcases h2 : env.serverGroupsAndResources with e | resourceList
      · simp [groupVersionResourceFromKind, h1, h2]
      · rcases h3 : buildGroupVersionResourceCache cache resourceList with ⟨er | u, cache2⟩
        · simp [groupVersionResourceFromKind, h1, h2, h3]
        · rcases h4 : lookupCache cache2 kind with _ | gvr <;>
            simp [groupVersionResourceFromKind, h1, h2, h3, h4]
    · simp [groupVersionResourceFromKind, h1]
  · intro gvr h1
    unfold groupVersionResourceFromKind
    rw [h1]
  · intro h1
    refine ⟨?_, ?_, ?_⟩
    · rcases h2 : env.serverGroupsAndResources with e | resourceList
      · simp [groupVersionResourceFromKind, h1, h2]
      · rcases h3 : buildGroupVersionResourceCache cache resourceList with ⟨er | u, cache2⟩
        · simp [groupVersionResourceFromKind, h1, h2, h3]
        · rcases h4 : lookupCache cache2 kind with _ | gvr <;>
            simp [groupVersionResourceFromKind, h1, h2, h3, h4]
    · intro e h2
      unfold groupVersionResourceFromKind
      rw [h1, h2]
    · intro resourceList h2 h3 h4
      rcases h5 : buildGroupVersionResourceCache cache resourceList with ⟨r1, cache2⟩
      rw [h5] at h3 h4
      simp only at h3 h4
      cases r1 with
      | error e => simp at h3
      | ok u => simp [groupVersionResourceFromKind, h1, h2, h5, h4]

/-- Witness for C3 at a warm cache: the resolver returns the cached
coordinate for "deployment" with zero refreshes. -/
theorem resolve_single_rebuild_witness :
    groupVersionResourceFromKind envDiscW cacheW "deployment" = ⟨.ok gvrW, cacheW, 0⟩ :=
  (resolve_single_rebuild envDiscW cacheW "deployment").2.1 gvrW (by decide)

/-- C4: during a cache rebuild, a discovered resource type whose name has no
path separator gets exactly two keys mapped to its coordinate — the
lower-cased kind and the "resource-name.group" composite — with every other
key untouched, and a sub-resource (name containing a slash) produces no cache
change at all. -/
theorem cache_two_keys (gv : GroupVersion) (cache : Cache) (r : APIResource) :
    (stringContainsChar r.name '/' = true → processAPIResource gv cache r = cache)
    ∧ (stringContainsChar r.name '/' = false →
        lookupCache (processAPIResource gv cache r) (stringToLower r.kind) =
          some ⟨gv.group, gv.version, r.name⟩
        ∧ lookupCache (processAPIResource gv cache r) (r.name ++ "." ++ gv.group) =
          some ⟨gv.group, gv.version, r.name⟩
        ∧ (∀ k, k ≠ stringToLower r.kind → k ≠ r.name ++ "." ++ gv.group →
            lookupCache (processAPIResource gv cache r) k = lookupCache cache k)) := by
  constructor
  · intro h
    simp [processAPIResource, h]
  · intro h
    have hp : processAPIResource gv cache r =
        insertCache (insertCache cache (stringToLower r.kind) ⟨gv.group, gv.version, r.name⟩)
          (r.name ++ "." ++ gv.group) ⟨gv.group, gv.version, r.name⟩ := by
      simp [processAPIResource, h]
    refine ⟨?_, ?_, ?_⟩
    · rw [hp]
      by_cases hk : stringToLower r.kind = r.name ++ "." ++ gv.group
      · rw [hk, lookup_insert_self]
      · rw [lookup_insert_ne _ _ _ _ hk, lookup_insert_self]
    · rw [hp, lookup_insert_self]
    · intro k hk1 hk2
      rw [hp, lookup_insert_ne _ _ _ _ hk2, lookup_insert_ne _ _ _ _ hk1]

/-- Witness for C4 at a concrete discovered resource type: both keys map to
the coordinate and an unrelated key is untouched. -/
theorem cache_two_keys_witness :
    lookupCache (processAPIResource gvW [] apiResourceW) "deployment" =
      some ⟨"apps", "v1", "deployments"⟩
    ∧ lookupCache (processAPIResource gvW [] apiResourceW) "deployments.apps" =
      some ⟨"apps", "v1", "deployments"⟩
    ∧ lookupCache (processAPIResource gvW [] apiResourceW) "pod" = lookupCache [] "pod" :=
  ⟨((cache_two_keys gvW [] apiResourceW).2 (by decide)).1,
   ((cache_two_keys gvW [] apiResourceW).2 (by decide)).2.1,
   ((cache_two_keys gvW [] apiResourceW).2 (by decide)).2.2 "pod" (by decide) (by decide)⟩

/-- C6: every delete call submitted carries foreground cascading propagation,
with no grace period unless the immediate flag is set, in which case the
grace period is the minimum (one second). -/
theorem delete_options_policy (env : DeleteEnv) (cache : Cache)
    (kind ns name : String) (deleteNow : Bool) :
    ∀ call, (deleteVerb env cache kind ns name deleteNow).call = some call →
      call.options.propagationPolicy = some .foreground
      ∧ call.options.gracePeriodSeconds = (if deleteNow then some 1 else none)
      ∧ call.ns = ns ∧ call.name = name := by
  intro call h
  rcases h1 : (groupVersionResourceFromKind env.discovery cache kind).res with e | gvr
  · simp only [deleteVerb, h1] at h
    exact Option.noConfusion h
  · simp only [deleteVerb, h1, Option.some.injEq] at h
    subst h
    cases deleteNow <;> simp

/-- Witness for C6 at a concrete immediate delete: foreground propagation and
a one-second grace period. -/
theorem delete_options_policy_witness :
    deleteCallW.options.propagationPolicy = some .foreground
    ∧ deleteCallW.options.gracePeriodSeconds = (if true then some 1 else none)
    ∧ deleteCallW.ns = "default" ∧ deleteCallW.name = "example" :=
  delete_options_policy envDelW cacheW "deployment" "default" "example" true
    deleteCallW (by decide)

theorem newFilterQueryLoop_eq_spec : (raw : List String) →
    newFilterQueryLoop raw = filterPairsOfSpec raw
  | [] => rfl
  | [_] => rfl
  | p :: v :: rest => by
    simp only [newFilterQueryLoop, filterPairsOfSpec]
    rw [newFilterQueryLoop_eq_spec rest]

theorem newSortQueryLoop_valid : (raw : List String) →
    (∀ (i : Nat) (hi : i < raw.length), i % 2 = 0 →
      raw.get ⟨i, hi⟩ = "a" ∨ raw.get ⟨i, hi⟩ = "d") →
    newSortQueryLoop raw = some (sortPairsOfSpec raw)
  | [], _ => rfl
  | [_], _ => rfl
  | f :: p :: rest, h => by
    have hf : f = "a" ∨ f = "d" := h 0 (by simp) rfl
    have ih := newSortQueryLoop_valid rest (fun i hi hev =>
      h (i + 2) (by simp only [List.length_cons]; omega)
        (by rw [Nat.add_mod_right]; exact hev))
    rcases hf with hf | hf <;> subst hf <;>
      simp [newSortQueryLoop, sortPairsOfSpec, ih]

theorem newSortQueryLoop_invalid : (raw : List String) → (i : Nat) → (hi : i < raw.length) →
    i % 2 = 0 → raw.get ⟨i, hi⟩ ≠ "a" → raw.get ⟨i, hi⟩ ≠ "d" →
    raw.length % 2 = 0 → newSortQueryLoop raw = none
  | [], i, hi, _, _, _, _ => absurd hi (by simp)
  | [_], _, _, _, _, _, hlen => absurd hlen (by simp)
  | f :: p :: rest, 0, hi, _, ha, hd, _ => by
    have ha2 : f ≠ "a" := ha
    have hd2 : f ≠ "d" := hd
    simp [newSortQueryLoop, ha2, hd2]
  | f :: p :: rest, 1, hi, hev, _, _, _ => by simp at hev
  | f :: p :: rest, i + 2, hi, hev, ha, hd, hlen => by
    have ih := newSortQueryLoop_invalid rest i
      (by simp only [List.length_cons] at hi; omega)
      (by rw [Nat.add_mod_right] at hev; exact hev) ha hd
      (by simp only [List.length_cons] at hlen; omega)
    by_cases hfa : f = "a"
    · simp [newSortQueryLoop, hfa, ih]
    · by_cases hfd : f = "d"
      · simp [newSortQueryLoop, hfa, hfd, ih]
      · simp [newSortQueryLoop, hfa, hfd]

/-- C7: a raw sort list of even length whose even-indexed entries are all
exactly "a" or "d" parses to the corresponding (property, direction) list;
an odd-length list or any other direction flag degrades the whole sort
clause to `NoSort`.  A raw filter list of odd length degrades to `NoFilter`,
and an even-length one parses to equality filters pairing each even-indexed
property name with the following value. -/
theorem raw_query_construction (sortRaw filterRaw : List String) :
    ((sortRaw.length % 2 = 0 ∧ ∀ (i : Nat) (hi : i < sortRaw.length), i % 2 = 0 →
        sortRaw.get ⟨i, hi⟩ = "a" ∨ sortRaw.get ⟨i, hi⟩ = "d") →
      NewSortQuery sortRaw = ⟨sortPairsOfSpec sortRaw⟩)
    ∧ (sortRaw.length % 2 = 1 → NewSortQuery sortRaw = noSort)
    ∧ ((∃ (i : Nat) (hi : i < sortRaw.length), i % 2 = 0 ∧
        sortRaw.get ⟨i, hi⟩ ≠ "a" ∧ sortRaw.get ⟨i, hi⟩ ≠ "d") →
      NewSortQuery sortRaw = noSort)
    ∧ (filterRaw.length % 2 = 1 → NewFilterQuery filterRaw = noFilter)
    ∧ (filterRaw.length % 2 = 0 → NewFilterQuery filterRaw = ⟨filterPairsOfSpec filterRaw⟩) := by
  refine ⟨?_, ?_, ?_, ?_, ?_⟩
  · intro h
    have hodd : ¬ sortRaw.length % 2 = 1 := by omega
    simp [NewSortQuery, hodd, newSortQueryLoop_valid sortRaw h.2]
  · intro h
    simp [NewSortQuery, h]
  · intro h
    obtain ⟨i, hi, hev, ha, hd⟩ := h
    by_cases hlen : sortRaw.length % 2 = 1
    · simp [NewSortQuery, hlen]
    · have hlen2 : sortRaw.length % 2 = 0 := by omega
      simp [NewSortQuery, hlen, newSortQueryLoop_invalid sortRaw i hi hev ha hd hlen2, noSort]
  · intro h
    simp [NewFilterQuery, h]
  · intro h
    have hodd : ¬ filterRaw.length % 2 = 1 := by omega
    simp [NewFilterQuery, hodd, newFilterQueryLoop_eq_spec filterRaw]

/-- Witness for C7: a concrete well-formed sort spec and filter spec parse to
their pair lists. -/
theorem raw_query_construction_witness :
    NewSortQuery ["a", "name", "d", "creationTimestamp"] =
      ⟨[⟨"name", true⟩, ⟨"creationTimestamp", false⟩]⟩
    ∧ NewFilterQuery ["namespace", "prod"] = ⟨[⟨"namespace", .stdString "prod"⟩]⟩ :=
  ⟨(raw_query_construction ["a", "name", "d", "creationTimestamp"] ["namespace", "prod"]).1
      (by refine ⟨rfl, ?_⟩; decide),
   (raw_query_construction ["a", "name", "d", "creationTimestamp"] ["namespace", "prod"]).2.2.2.2
      rfl⟩

theorem updateBody_calls_spec (env : UpdateEnv) (gvr : GVR) (ns name : String)
    (ob0 : KObject) (k : Nat) (ob : KObject) (hreach : ObjReach ob0 ob) :
    ∀ c ∈ (updateBody env gvr ns name k ob).calls, PatchCallSpec env gvr ns name ob0 c := by
  intro c hc
  rcases hget : env.get gvr ns name k with e | result
  · simp [updateBody, hget] at hc
  · rcases hm1 : env.marshal result with e | origData
    · simp [updateBody, hget, hm1] at hc
    · have hset : setResourceVersion ob result.resourceVersion =
          setResourceVersion ob0 result.resourceVersion := by
        rcases hreach with h | ⟨rv, h⟩
        · rw [h]
        · rw [h, setResourceVersion_idem]
      rcases hm2 : env.marshal (setResourceVersion ob result.resourceVersion) with e | modifiedData
      · simp [updateBody, hget, hm1, hm2] at hc
      · rcases h3 : env.threeWay origData modifiedData origData with e | patchBytes
        · simp [updateBody, hget, hm1, hm2, h3] at hc
        · simp only [updateBody, hget, hm1, hm2, h3, List.mem_singleton] at hc
          subst hc
          refine ⟨rfl, rfl, rfl, rfl, result, origData, modifiedData, ?_, ?_, ?_, ?_⟩
          · exact hget
          · exact hm1
          · rw [← hset]; exact hm2
          · exact h3

theorem updateBody_object (env : UpdateEnv) (gvr : GVR) (ns name : String)
    (k : Nat) (ob : KObject) :
    (updateBody env gvr ns name k ob).object = ob ∨
    ∃ result, env.get gvr ns name k = .ok result ∧
      (updateBody env gvr ns name k ob).object = setResourceVersion ob result.resourceVersion := by
  rcases hget : env.get gvr ns name k with e | result
  · left; simp [updateBody, hget]
  · rcases hm1 : env.marshal result with e | origData
    · left; simp [updateBody, hget, hm1]
    · right
      refine ⟨result, rfl, ?_⟩
      rcases hm2 : env.marshal (setResourceVersion ob result.resourceVersion) with e | modifiedData
      · simp [updateBody, hget, hm1, hm2]
      · rcases h3 : env.threeWay origData modifiedData origData with e | patchBytes <;>
          simp [updateBody, hget, hm1, hm2, h3]

theorem updateBody_reach (env : UpdateEnv) (gvr : GVR) (ns name : String)
    (ob0 : KObject) (k : Nat) (ob : KObject) (hreach : ObjReach ob0 ob) :
    ObjReach ob0 (updateBody env gvr ns name k ob).object := by
  rcases updateBody_object env gvr ns name k ob with h | ⟨result, _, h⟩
  · rw [h]; exact hreach
  · right
    refine ⟨result.resourceVersion, ?_⟩
    rw [h]
    rcases hreach with h2 | ⟨rv, h2⟩
    · rw [h2]
    · rw [h2, setResourceVersion_idem]

theorem updateBody_fetched (env : UpdateEnv) (gvr : GVR) (ns name : String)
    (ob0 : KObject) (k : Nat) (ob : KObject)
    (hf : FetchedRV env gvr ns name ob0 ob) :
    FetchedRV env gvr ns name ob0 (updateBody env gvr ns name k ob).object := by
  rcases updateBody_object env gvr ns name k ob with h | ⟨result, hget, h⟩
  · rw [h]; exact hf
  · obtain ⟨k0, r0, hg0, he⟩ := hf
    exact ⟨k, result, hget, by rw [h, he, setResourceVersion_idem]⟩

theorem retryLoop_step_ok (env : UpdateEnv) (gvr : GVR) (ns name : String)
    (s k : Nat) (ob : KObject) (acc : List PatchCall) (le : Option GoErr) (u : Unit)
    (h : (updateBody env gvr ns name k ob).res = .ok u) :
    retryOnConflictLoop env gvr ns name (s + 1) k ob acc le =
      ⟨.ok (), (updateBody env gvr ns name k ob).object,
        acc ++ (updateBody env gvr ns name k ob).calls, k + 1⟩ := by
  simp only [retryOnConflictLoop, h]

theorem retryLoop_step_nonconflict (env : UpdateEnv) (gvr : GVR) (ns name : String)
    (s k : Nat) (ob : KObject) (acc : List PatchCall) (le : Option GoErr) (e : GoErr)
    (h : (updateBody env gvr ns name k ob).res = .error e) (hc : e.isConflict = false) :
    retryOnConflictLoop env gvr ns name (s + 1) k ob acc le =
      ⟨.error e, (updateBody env gvr ns name k ob).object,
        acc ++ (updateBody env gvr ns name k ob).calls, k + 1⟩ := by
  simp only [retryOnConflictLoop, h, hc]
  simp

theorem retryLoop_step_conflict (env : UpdateEnv) (gvr : GVR) (ns name : String)
    (s k : Nat) (ob : KObject) (acc : List PatchCall) (le : Option GoErr) (e : GoErr)
    (h : (updateBody env gvr ns name k ob).res = .error e) (hc : e.isConflict = true) :
    retryOnConflictLoop env gvr ns name (s + 1) k ob acc le =
      retryOnConflictLoop env gvr ns name s (k + 1) (updateBody env gvr ns name k ob).object
        (acc ++ (updateBody env gvr ns name k ob).calls) (some e) := by
  simp only [retryOnConflictLoop, h, hc]
  simp

theorem retryLoop_calls_spec (env : UpdateEnv) (gvr : GVR) (ns name : String)
    (ob0 : KObject) (s : Nat) :
    ∀ (k : Nat) (ob : KObject) (acc : List PatchCall) (le : Option GoErr),
      ObjReach ob0 ob → (∀ c ∈ acc, PatchCallSpec env gvr ns name ob0 c) →
      ∀ c ∈ (retryOnConflictLoop env gvr ns name s k ob acc le).calls,
        PatchCallSpec env gvr ns name ob0 c := by
  induction s with
  | zero =>
    intro k ob acc le _ hacc c hc
    simp only [retryOnConflictLoop] at hc
    exact hacc c hc
  | succ s ih =>
    intro k ob acc le hreach hacc c hc
    have hacc2 : ∀ c2 ∈ acc ++ (updateBody env gvr ns name k ob).calls,
        PatchCallSpec env gvr ns name ob0 c2 := by
      intro c2 hc2
      rcases List.mem_append.mp hc2 with h | h
      · exact hacc c2 h
      · exact updateBody_calls_spec env gvr ns name ob0 k ob hreach c2 h
    rcases hres : (updateBody env gvr ns name k ob).res with e | u
    · by_cases hconf : e.isConflict = true
      · rw [retryLoop_step_conflict env gvr ns name s k ob acc le e hres hconf] at hc
        exact ih (k + 1) _ _ _ (updateBody_reach env gvr ns name ob0 k ob hreach) hacc2 c hc
      · have hc2 : e.isConflict = false := by simpa using hconf
        rw [retryLoop_step_nonconflict env gvr ns name s k ob acc le e hres hc2] at hc
        exact hacc2 c hc
    · rw [retryLoop_step_ok env gvr ns name s k ob acc le u hres] at hc
      exact hacc2 c hc

theorem retryLoop_attempts_le (env : UpdateEnv) (gvr : GVR) (ns name : String) (s : Nat) :
    ∀ (k : Nat) (ob : KObject) (acc : List PatchCall) (le : Option GoErr),
      (retryOnConflictLoop env gvr ns name s k ob acc le).attempts ≤ k + s := by
  induction s with
  | zero => intro k ob acc le; simp [retryOnConflictLoop]
  | succ s ih =>
    intro k ob acc le
    rcases hres : (updateBody env gvr ns name k ob).res with e | u
    · by_cases hconf : e.isConflict = true
      · rw [retryLoop_step_conflict env gvr ns name s k ob acc le e hres hconf]
        exact le_trans (ih (k + 1) _ _ _) (by omega)
      · have hc2 : e.isConflict = false := by simpa using hconf
        rw [retryLoop_step_nonconflict env gvr ns name s k ob acc le e hres hc2]
        simp only
        omega
    · rw [retryLoop_step_ok env gvr ns name s k ob acc le u hres]
      simp only
      omega

theorem updateBody_conflict_source (env : UpdateEnv) (gvr : GVR) (ns name : String)
    (k : Nat) (ob : KObject) (e : GoErr)
    (h : (updateBody env gvr ns name k ob).res = .error e) (hc : e.isConflict = true) :
    ∃ c, (updateBody env gvr ns name k ob).calls = [c] ∧ c.ptype = .merge ∧
      env.patch c = .error e := by
  rcases hget : env.get gvr ns name k with ge | result
  · simp only [updateBody, hget] at h
    rcases h with h
    simp only [Except.error.injEq] at h
    rw [← h] at hc
    simp [GoErr.isConflict] at hc
  · rcases hm1 : env.marshal result with me | origData
    · simp only [updateBody, hget, hm1, Except.error.injEq] at h
      rw [← h] at hc
      simp [GoErr.isConflict] at hc
    · rcases hm2 : env.marshal (setResourceVersion ob result.resourceVersion) with me | modifiedData
      · simp only [updateBody, hget, hm1, hm2, Except.error.injEq] at h
        rw [← h] at hc
        simp [GoErr.isConflict] at hc
      · rcases h3 : env.threeWay origData modifiedData origData with te | patchBytes
        · simp only [updateBody, hget, hm1, hm2, h3, Except.error.injEq] at h
          rw [← h] at hc
          simp [GoErr.isConflict] at hc
        · simp only [updateBody, hget, hm1, hm2, h3] at h ⊢
          exact ⟨⟨k, gvr, ns, name, .merge, patchBytes⟩, rfl, rfl, h⟩

/-- C1: every patch `Update` submits is a merge patch addressed by the
coordinate derived from the caller's object, and its body is the three-way
JSON merge patch computed with that attempt's freshly fetched server copy as
both the original and the current base and the caller's object — resource
version overwritten by the server's — as the desired target. -/
theorem update_patch_construction (env : UpdateEnv) (pluralize : String → String)
    (object : KObject) :
    ∀ c ∈ (updateVerb env pluralize object).calls,
      PatchCallSpec env (groupVersionResourceFromUnstructured pluralize object)
        object.ns object.name object c := by
  intro c hc
  simp only [updateVerb] at hc
  exact retryLoop_calls_spec env (groupVersionResourceFromUnstructured pluralize object)
    object.ns object.name object defaultRetrySteps 0 object [] none (Or.inl rfl)
    (by simp) c hc

/-- Witness for C1: the single patch call of a successful concrete update
satisfies the three-way merge-patch specification. -/
theorem update_patch_construction_witness :
    PatchCallSpec envW gvrW "default" "example" obW cW :=
  update_patch_construction envW pluralizeW obW cW (by decide)

/-- C2: the update retry loop is bounded by the default five attempts;
a successful write stops it, a non-conflict error from the closure aborts it
immediately with that error, a conflict error consumes one retry step; a
conflict can only arise from the write (patch) step — in particular a fetch
failure surfaces as a wrapped, non-conflict error. -/
theorem update_retry_policy (env : UpdateEnv) (pluralize : String → String)
    (object : KObject) (gvr : GVR) (ns name : String) :
    ((updateVerb env pluralize object).attempts ≤ defaultRetrySteps)
    ∧ (∀ (s k : Nat) (ob : KObject) (acc : List PatchCall) (le : Option GoErr) (u : Unit),
        (updateBody env gvr ns name k ob).res = .ok u →
        retryOnConflictLoop env gvr ns name (s + 1) k ob acc le =
          ⟨.ok (), (updateBody env gvr ns name k ob).object,
            acc ++ (updateBody env gvr ns name k ob).calls, k + 1⟩)
    ∧ (∀ (s k : Nat) (ob : KObject) (acc : List PatchCall) (le : Option GoErr) (e : GoErr),
        (updateBody env gvr ns name k ob).res = .error e → e.isConflict = false →
        retryOnConflictLoop env gvr ns name (s + 1) k ob acc le =
          ⟨.error e, (updateBody env gvr ns name k ob).object,
            acc ++ (updateBody env gvr ns name k ob).calls, k + 1⟩)
    ∧ (∀ (s k : Nat) (ob : KObject) (acc : List PatchCall) (le : Option GoErr) (e : GoErr),
        (updateBody env gvr ns name k ob).res = .error e → e.isConflict = true →
        retryOnConflictLoop env gvr ns name (s + 1) k ob acc le =
          retryOnConflictLoop env gvr ns name s (k + 1) (updateBody env gvr ns name k ob).object
            (acc ++ (updateBody env gvr ns name k ob).calls) (some e))
    ∧ (∀ (k : Nat) (ob : KObject) (e : GoErr),
        (updateBody env gvr ns name k ob).res = .error e → e.isConflict = true →
        ∃ c, (updateBody env gvr ns name k ob).calls = [c] ∧ c.ptype = .merge ∧
          env.patch c = .error e)
    ∧ (∀ (k : Nat) (ob : KObject) (e : GoErr), env.get gvr ns name k = .error e →
        (updateBody env gvr ns name k ob).res =
          .error (.other ("failed to get latest " ++ gvr.resource ++ " version: " ++ e.msg))) := by
  refine ⟨?_, ?_, ?_, ?_, ?_, ?_⟩
  · simp only [updateVerb]
    exact le_trans
      (retryLoop_attempts_le env (groupVersionResourceFromUnstructured pluralize object)
        object.ns object.name defaultRetrySteps 0 object [] none)
      (by omega)
  · intro s k ob acc le u h
    exact retryLoop_step_ok env gvr ns name s k ob acc le u h
  · intro s k ob acc le e h hc
    exact retryLoop_step_nonconflict env gvr ns name s k ob acc le e h hc
  · intro s k ob acc le e h hc
    exact retryLoop_step_conflict env gvr ns name s k ob acc le e h hc
  · intro k ob e h hc
    exact updateBody_conflict_source env gvr ns name k ob e h hc
  · intro k ob e h
    simp [updateBody, h]

/-- Witness for C2: a concrete fetch failure surfaces as the wrapped,
non-conflict error. -/
theorem update_retry_policy_witness :
    (updateBody envGetErrW gvrW "default" "example" 0 obW).res =
      .error (.other ("failed to get latest " ++ gvrW.resource ++ " version: " ++
        (GoErr.other "boom").msg)) :=
  (update_retry_policy envGetErrW pluralizeW obW gvrW "default" "example").2.2.2.2.2
    0 obW (.other "boom") rfl

theorem retryLoop_object_fetched (env : UpdateEnv) (gvr : GVR) (ns name : String)
    (ob0 : KObject) (s : Nat) :
    ∀ (k : Nat) (ob : KObject) (acc : List PatchCall) (le : Option GoErr),
      FetchedRV env gvr ns name ob0 ob →
      FetchedRV env gvr ns name ob0 (retryOnConflictLoop env gvr ns name s k ob acc le).object := by
  induction s with
  | zero => intro k ob acc le hf; simpa [retryOnConflictLoop] using hf
  | succ s ih =>
    intro k ob acc le hf
    rcases hres : (updateBody env gvr ns name k ob).res with e | u
    · by_cases hconf : e.isConflict = true
      · rw [retryLoop_step_conflict env gvr ns name s k ob acc le e hres hconf]
        exact ih (k + 1) _ _ _ (updateBody_fetched env gvr ns name ob0 k ob hf)
      · have hc2 : e.isConflict = false := by simpa using hconf
        rw [retryLoop_step_nonconflict env gvr ns name s k ob acc le e hres hc2]
        exact updateBody_fetched env gvr ns name ob0 k ob hf
    · rw [retryLoop_step_ok env gvr ns name s k ob acc le u hres]
      exact updateBody_fetched env gvr ns name ob0 k ob hf

theorem retryLoop_object_reach (env : UpdateEnv) (gvr : GVR) (ns name : String)
    (ob0 : KObject) (s : Nat) :
    ∀ (k : Nat) (ob : KObject) (acc : List PatchCall) (le : Option GoErr),
      (ob = ob0 ∨ FetchedRV env gvr ns name ob0 ob) →
      ((retryOnConflictLoop env gvr ns name s k ob acc le).object = ob0 ∨
        FetchedRV env gvr ns name ob0 (retryOnConflictLoop env gvr ns name s k ob acc le).object) := by
  induction s with
  | zero => intro k ob acc le hf; simpa [retryOnConflictLoop] using hf
  | succ s ih =>
    intro k ob acc le hf
    have hbody : (updateBody env gvr ns name k ob).object = ob0 ∨
        FetchedRV env gvr ns name ob0 (updateBody env gvr ns name k ob).object := by
      rcases hf with hf | hf
      · subst hf
        rcases updateBody_object env gvr ns name k ob with h | ⟨result, hget, h⟩
        · left; exact h
        · right; exact ⟨k, result, hget, h⟩
      · right; exact updateBody_fetched env gvr ns name ob0 k ob hf
    rcases hres : (updateBody env gvr ns name k ob).res with e | u
    · by_cases hconf : e.isConflict = true
      · rw [retryLoop_step_conflict env gvr ns name s k ob acc le e hres hconf]
        exact ih (k + 1) _ _ _ (by rcases hbody with h | h; exacts [Or.inl h, Or.inr h])
      · have hc2 : e.isConflict = false := by simpa using hconf
        rw [retryLoop_step_nonconflict env gvr ns name s k ob acc le e hres hc2]
        exact hbody
    · rw [retryLoop_step_ok env gvr ns name s k ob acc le u hres]
      exact hbody

/-- C10 counterexample: a successful update in which the fetched server copy
carries the same resource version the caller passed in; the fetch succeeded,
`Update` returned, and the caller's object still carries exactly the version
it was passed in with — refuting the claim that it no longer does. -/
theorem update_version_overwrite_cex :
    envSameW.get gvrW "default" "example" 0 = .ok serverSameW
    ∧ (updateVerb envSameW pluralizeW obW).res = .ok ()
    ∧ (updateVerb envSameW pluralizeW obW).object.resourceVersion = obW.resourceVersion := by
  exact ⟨rfl, rfl, rfl⟩

/-- C10 (amended): once an attempt's fetch and the marshalling of the fetched
copy succeed, `Update` overwrites the caller object's resource version with
the fetched one before the patch is computed; the object `Update` leaves
behind is either untouched or carries the resource version of some fetched
server copy, and after a first successful fetch-and-marshal it always carries
a fetched version (which may coincide with the version passed in). -/
theorem update_mutates_resource_version (env : UpdateEnv) (pluralize : String → String)
    (object : KObject) (gvr : GVR) (ns name : String) :
    (∀ (k : Nat) (ob result : KObject) (origData : String),
        env.get gvr ns name k = .ok result → env.marshal result = .ok origData →
        (updateBody env gvr ns name k ob).object = setResourceVersion ob result.resourceVersion)
    ∧ ((updateVerb env pluralize object).object = object ∨
        FetchedRV env (groupVersionResourceFromUnstructured pluralize object)
          object.ns object.name object (updateVerb env pluralize object).object)
    ∧ (∀ (result : KObject) (origData : String),
        env.get (groupVersionResourceFromUnstructured pluralize object)
          object.ns object.name 0 = .ok result →
        env.marshal result = .ok origData →
        FetchedRV env (groupVersionResourceFromUnstructured pluralize object)
          object.ns object.name object (updateVerb env pluralize object).object) := by
  refine ⟨?_, ?_, ?_⟩
  · intro k ob result origData hget hm1
    rcases hm2 : env.marshal (setResourceVersion ob result.resourceVersion) with e | modifiedData
    · simp [updateBody, hget, hm1, hm2]
    · rcases h3 : env.threeWay origData modifiedData origData with e | patchBytes <;>
        simp [updateBody, hget, hm1, hm2, h3]
  · simp only [updateVerb]
    exact retryLoop_object_reach env (groupVersionResourceFromUnstructured pluralize object)
      object.ns object.name object defaultRetrySteps 0 object [] none (Or.inl rfl)
  · intro result origData hget hm1
    have hbody : (updateBody env (groupVersionResourceFromUnstructured pluralize object)
        object.ns object.name 0 object).object =
        setResourceVersion object result.resourceVersion := by
      rcases hm2 : env.marshal (setResourceVersion object result.resourceVersion) with e | modifiedData
      · simp [updateBody, hget, hm1, hm2]
      · rcases h3 : env.threeWay origData modifiedData origData with e | patchBytes <;>
          simp [updateBody, hget, hm1, hm2, h3]
    have hfet : FetchedRV env (groupVersionResourceFromUnstructured pluralize object)
        object.ns object.name object (updateBody env
          (groupVersionResourceFromUnstructured pluralize object)
          object.ns object.name 0 object).object :=
      ⟨0, result, hget, hbody⟩
    show FetchedRV env (groupVersionResourceFromUnstructured pluralize object)
      object.ns object.name object
      (retryOnConflictLoop env (groupVersionResourceFromUnstructured pluralize object)
        object.ns object.name defaultRetrySteps 0 object [] none).object
    rcases hres : (updateBody env (groupVersionResourceFromUnstructured pluralize object)
        object.ns object.name 0 object).res with e | u
    · by_cases hconf : e.isConflict = true
      · rw [show defaultRetrySteps = 4 + 1 from rfl,
          retryLoop_step_conflict env _ object.ns object.name 4 0 object [] none e hres hconf]
        exact retryLoop_object_fetched env _ object.ns object.name object 4 1 _ _ _ hfet
      · have hc2 : e.isConflict = false := by simpa using hconf
        rw [show defaultRetrySteps = 4 + 1 from rfl,
          retryLoop_step_nonconflict env _ object.ns object.name 4 0 object [] none e hres hc2]
        exact hfet
    · rw [show defaultRetrySteps = 4 + 1 from rfl,
        retryLoop_step_ok env _ object.ns object.name 4 0 object [] none u hres]
      exact hfet

/-- Witness for C10 (amended): in the concrete drifted-version run, the
caller's object ends up carrying the fetched server version. -/
theorem update_mutates_resource_version_witness :
    FetchedRV envW gvrW "default" "example" obW (updateVerb envW pluralizeW obW).object :=
  (update_mutates_resource_version envW pluralizeW obW gvrW "default" "example").2.2
    serverObjW "example|7|server" rfl rfl

/-- C5: for objects handed to `Create` or `Update`, the API coordinate is
derived solely from the object's own group and version plus the pluralized
lower-cased kind; the derivation and both operations neither read nor write
the kind-to-coordinate cache (the threaded cache passes through unchanged and
the results are independent of it). -/
theorem object_coordinate_derivation (pluralize : String → String) (cenv : CreateEnv)
    (uenv : UpdateEnv) (cache : Cache) (object : KObject) :
    groupVersionResourceFromUnstructured pluralize object =
      ⟨object.group, object.version, pluralize (stringToLower object.kind)⟩
    ∧ (createVerb cenv pluralize cache object).1.gvr =
      ⟨object.group, object.version, pluralize (stringToLower object.kind)⟩
    ∧ (createVerb cenv pluralize cache object).2 = cache
    ∧ (∀ cache2, (createVerb cenv pluralize cache object).1 =
        (createVerb cenv pluralize cache2 object).1)
    ∧ (updateVerbCached uenv pluralize cache object).2 = cache
    ∧ (∀ cache2, (updateVerbCached uenv pluralize cache object).1 =
        (updateVerbCached uenv pluralize cache2 object).1)
    ∧ (∀ c ∈ (updateVerb uenv pluralize object).calls,
        c.gvr = ⟨object.group, object.version, pluralize (stringToLower object.kind)⟩) := by
  refine ⟨rfl, rfl, rfl, fun _ => rfl, rfl, fun _ => rfl, ?_⟩
  intro c hc
  simp only [updateVerb] at hc
  exact (retryLoop_calls_spec uenv (groupVersionResourceFromUnstructured pluralize object)
    object.ns object.name object defaultRetrySteps 0 object [] none (Or.inl rfl)
    (by simp) c hc).1

/-- Witness for C5: the concrete update's one patch call is addressed by the
coordinate derived from the object alone. -/
theorem object_coordinate_derivation_witness :
    cW.gvr = ⟨"apps", "v1", "deployments"⟩ :=
  (object_coordinate_derivation pluralizeW cenvW envW [] obW).2.2.2.2.2.2 cW (by decide)

/-- C8 counterexample: in an environment where ambient in-cluster detection
succeeds, the karmada initializer still consults only the explicit
kubeconfig file — it never tries ambient identity, refuting the claim that
both initializers try ambient identity first. -/
theorem init_karmada_ambient_cex :
    clientEnvW.inClusterConfig = .ok rcW
    ∧ (initKarmadaConfig clientEnvW [withKubeconfig "/etc/karmada/kubeconfig"]).trace =
      [ConfigMode.file, ConfigMode.file, ConfigMode.file]
    ∧ ConfigMode.ambient ∉
      (initKarmadaConfig clientEnvW [withKubeconfig "/etc/karmada/kubeconfig"]).trace := by
  refine ⟨rfl, rfl, ?_⟩
  decide

/-- C8 (amended): the Kubernetes initializer (`InitKubeConfig`) tries ambient
in-cluster identity first, uses it alone when it succeeds, and falls back to
the explicit kubeconfig path only when ambient detection fails; the karmada
initializer (`InitKarmadaConfig`) builds exclusively from the explicit
kubeconfig path and never attempts ambient detection. -/
theorem init_config_mode_selection (env : ClientEnv)
    (options : List (ConfigBuilder → ConfigBuilder)) :
    ((initKubeConfig env options).trace.head? = some ConfigMode.ambient)
    ∧ (∀ rc, env.inClusterConfig = .ok rc →
        (initKubeConfig env options).trace = [ConfigMode.ambient]
        ∧ (initKubeConfig env options).exitCode = none
        ∧ (initKubeConfig env options).kubernetesRestConfig =
          some { rc with
                  userAgent := env.defaultUserAgent ++ "/" ++ (newConfigBuilder options).userAgent
                  insecure := (newConfigBuilder options).insecure })
    ∧ (∀ e, env.inClusterConfig = .error e →
        ∃ rest, (initKubeConfig env options).trace = ConfigMode.ambient :: ConfigMode.file :: rest)
    ∧ ConfigMode.ambient ∉ (initKarmadaConfig env options).trace := by
  refine ⟨?_, ?_, ?_, ?_⟩
  · rcases h1 : env.inClusterConfig with e | rc
    · rcases h2 : buildRestConfig env (newConfigBuilder options) with e2 | rc2
      · simp [initKubeConfig, h1, h2]
      · rcases h3 : buildAPIConfig env (newConfigBuilder options) with e3 | api <;>
          simp [initKubeConfig, h1, h2, h3]
    · simp [initKubeConfig, h1]
  · intro rc h1
    simp [initKubeConfig, h1]
  · intro e h1
    rcases h2 : buildRestConfig env (newConfigBuilder options) with e2 | rc2
    · exact ⟨[], by simp [initKubeConfig, h1, h2]⟩
    · rcases h3 : buildAPIConfig env (newConfigBuilder options) with e3 | api <;>
        exact ⟨[ConfigMode.file], by simp [initKubeConfig, h1, h2, h3]⟩
  · rcases h2 : buildRestConfig env (newConfigBuilder options) with e2 | rc2
    · simp [initKarmadaConfig, h2]
    · rcases h3 : buildAPIConfig env (newConfigBuilder options) with e3 | api
      · simp [initKarmadaConfig, h2, h3]
      · rcases h4 : buildRestConfig env (newConfigBuilder options) with e4 | rc4 <;>
          simp [initKarmadaConfig, h2, h3, h4]

/-- Witness for C8 (amended): with ambient identity available, the Kubernetes
initializer consults only ambient identity and stores the ambient config. -/
theorem init_config_mode_selection_witness :
    (initKubeConfig clientEnvW [withKubeconfig "/etc/karmada/kubeconfig"]).trace =
      [ConfigMode.ambient]
    ∧ (initKubeConfig clientEnvW [withKubeconfig "/etc/karmada/kubeconfig"]).exitCode = none
    ∧ (initKubeConfig clientEnvW [withKubeconfig "/etc/karmada/kubeconfig"]).kubernetesRestConfig =
      some { rcW with
              userAgent := clientEnvW.defaultUserAgent ++ "/" ++
                (newConfigBuilder [withKubeconfig "/etc/karmada/kubeconfig"]).userAgent
              insecure := (newConfigBuilder [withKubeconfig "/etc/karmada/kubeconfig"]).insecure } :=
  (init_config_mode_selection clientEnvW [withKubeconfig "/etc/karmada/kubeconfig"]).2.1 rcW rfl

/-- C9: the member-cluster client getter builds a new client exactly once per
unseen cluster name, from the shared member config whose host is rewritten to
the control plane's host concatenated with the proxy path template
instantiated with the cluster name; the built client is stored under the
cluster name, and any call that finds the name cached returns the cached
client with no rebuild. -/
theorem member_client_proxy_and_cache (env : ClientEnv) (st : KarmadaState)
    (clusterName : String) :
    (sprintf1 proxyURL clusterName =
      "/apis/cluster.karmada.io/v1alpha1/clusters/" ++ clusterName ++ "/proxy/")
    ∧ (∀ rc mc, isKarmadaInitialized st = true →
        lookupMember st.memberClients clusterName = none →
        st.karmadaRestConfig = some rc → st.karmadaMemberConfig = some mc →
        (inClusterClientForMemberCluster env st clusterName).builds =
          [{ mc with host := rc.host ++ sprintf1 proxyURL clusterName }]
        ∧ (∀ c, env.newForConfig { mc with host := rc.host ++ sprintf1 proxyURL clusterName } = .ok c →
            (inClusterClientForMemberCluster env st clusterName).client = some c
            ∧ lookupMember
                (inClusterClientForMemberCluster env st clusterName).state.memberClients
                clusterName = some c
            ∧ (inClusterClientForMemberCluster env
                (inClusterClientForMemberCluster env st clusterName).state clusterName).client =
              some c
            ∧ (inClusterClientForMemberCluster env
                (inClusterClientForMemberCluster env st clusterName).state clusterName).builds = []))
    ∧ (∀ c, isKarmadaInitialized st = true →
        lookupMember st.memberClients clusterName = some c →
        (inClusterClientForMemberCluster env st clusterName).client = some c
        ∧ (inClusterClientForMemberCluster env st clusterName).builds = []
        ∧ (inClusterClientForMemberCluster env st clusterName).state.memberClients =
          st.memberClients) := by
  have hsplit : splitFirst ['%', 's'] proxyURL.data =
      some ("/apis/cluster.karmada.io/v1alpha1/clusters/".data, "/proxy/".data) := by decide
  refine ⟨?_, ?_, ?_⟩
  · show sprintf1 proxyURL clusterName = _
    simp only [sprintf1, hsplit]
  · intro rc mc hinit hmiss hrc hmc
    constructor
    · rcases hnew : env.newForConfig
          { mc with host := rc.host ++ sprintf1 proxyURL clusterName } with e | c <;>
        simp [inClusterClientForMemberCluster, hinit, hmiss, hrc, hmc, hnew]
    · intro c hnew
      have h1 : (inClusterClientForMemberCluster env st clusterName).client = some c := by
        simp [inClusterClientForMemberCluster, hinit, hmiss, hrc, hmc, hnew]
      have hst2 : (inClusterClientForMemberCluster env st clusterName).state =
          { st with
              karmadaMemberConfig :=
                some { mc with host := rc.host ++ sprintf1 proxyURL clusterName }
              memberClients := storeMember st.memberClients clusterName c
              memberAPIServerClient := some c } := by
        simp [inClusterClientForMemberCluster, hinit, hmiss, hrc, hmc, hnew]
      have hlook : lookupMember
          (inClusterClientForMemberCluster env st clusterName).state.memberClients
          clusterName = some c := by
        rw [hst2]
        simp [lookupMember, storeMember, List.find?]
      have hinit2 : isKarmadaInitialized
          (inClusterClientForMemberCluster env st clusterName).state = true := by
        rw [hst2]
        simpa [isKarmadaInitialized, hrc] using hinit
      refine ⟨h1, hlook, ?_, ?_⟩ <;>
      · generalize hg : (inClusterClientForMemberCluster env st clusterName).state = st2 at hlook hinit2
        simp [inClusterClientForMemberCluster, hinit2, hlook]
  · intro c hinit hhit
    simp [inClusterClientForMemberCluster, hinit, hhit]

/-- Witness for C9: from a fresh initialized state, the concrete getter
builds one client on the rewritten proxy host, caches it, and a second call
returns it without rebuilding. -/
theorem member_client_proxy_and_cache_witness :
    (inClusterClientForMemberCluster clientEnvW karmadaStW "member1").builds =
      [{ rcW with host := rcW.host ++ sprintf1 proxyURL "member1" }]
    ∧ (inClusterClientForMemberCluster clientEnvW
        (inClusterClientForMemberCluster clientEnvW karmadaStW "member1").state "member1").builds = [] :=
  ⟨((member_client_proxy_and_cache clientEnvW karmadaStW "member1").2.1 rcW rcW rfl rfl rfl rfl).1,
   (((member_client_proxy_and_cache clientEnvW karmadaStW "member1").2.1 rcW rcW rfl rfl rfl rfl).2
      ⟨rcW.host ++ sprintf1 proxyURL "member1"⟩ rfl).2.2.2⟩

end DashboardProof
